import Mathlib

/-
  Verification development for the mediasoup video-call SDK repository
  (signaling server in src/server/src, browser SDK in src/src/sdk).
  The server message handler, room manager, client connection state
  machine, async event queue and typed event emitter are embedded as
  executable Lean definitions, and the specification claims are settled
  as theorems about them.
-/

namespace Sdk

/-- Media kinds, from the `'audio' | 'video'` union used throughout. -/
inductive MediaKind
  | audio
  | video
deriving DecidableEq, Repr

/-- DTLS handshake parameters carried by a TRANSPORT_CONNECT message.
In the TypeScript source both fields may be absent on a malformed
message, hence the `Option`s; an empty string role is distinguished
because the JS truthiness check `!role` also fails on it. -/
structure DtlsParameters where
  fingerprints : Option (List String)
  role : Option String
deriving DecidableEq, Repr

/-- The validity check from `handleTransportConnectMessage`:
`!message.dtlsParameters || !message.dtlsParameters.fingerprints ||
!message.dtlsParameters.role`.  A present fingerprints array is always
truthy (even empty), while an absent or empty role string is falsy. -/
def dtlsValid : Option DtlsParameters → Bool
  | none => false
  | some d => d.fingerprints.isSome && d.role.getD "" != ""

/-- Incoming signaling messages handled by `SignalingHandler.handleMessage`. -/
inductive ClientMessage
  | join (roomId userId : String)
  | leave (userId : String)
  | transportConnect (transportId : String) (dtls : Option DtlsParameters)
  | transportProduce (transportId : String) (kind : MediaKind)
  | transportConsume (transportId producerId : String)
  | resume (consumerId : String)
  | pause (consumerId : String)
deriving DecidableEq, Repr

/-- The `Error` values thrown by the handler, by their message text. -/
inductive ServerError
  | transportNotFound (transportId : String)
  | producerNotFound (producerId : String)
  | consumerNotFound (consumerId : String)
  | invalidDtlsParameters
deriving DecidableEq, Repr

/-- Messages the server emits to sockets. -/
inductive ServerMessage
  | joinResponse (sendTransportId recvTransportId : String)
  | connectTransport (transportId : String)
  | produceReply (producerId : String) (kind : MediaKind)
  | consumeReply (consumerId producerId : String) (kind : MediaKind)
  | newProducer (producerId : String) (kind : MediaKind)
  | errorMsg (e : ServerError)
deriving DecidableEq, Repr

/-- Calls made into the mediasoup engine, recorded as an audit log. -/
inductive EngineCall
  | createTransport (transportId : String)
  | connectTransport (transportId : String)
  | produce (transportId : String) (kind : MediaKind)
  | consume (transportId producerId : String) (paused : Bool)
  | consumerResume (consumerId : String)
  | consumerPause (consumerId : String)
  | transportClose (transportId : String)
deriving DecidableEq, Repr

/-- A server-side producer entry of the `producers` map. -/
structure SProducer where
  id : String
  transportId : String
  kind : MediaKind
deriving DecidableEq, Repr

/-- A server-side consumer entry of the `consumers` map. -/
structure SConsumer where
  id : String
  transportId : String
  producerId : String
  kind : MediaKind
  paused : Bool
deriving DecidableEq, Repr

/-- The mutable state of `SignalingHandler`: the three maps, plus a
counter used to mint fresh ids for entities the engine would create. -/
structure HandlerState where
  transports : List String
  producers : List SProducer
  consumers : List SConsumer
  nextId : Nat
deriving DecidableEq, Repr

/-- Result of handling one message for one requesting socket: the new
state, the messages emitted to the requesting socket (in order), the
messages emitted via `socket.broadcast.emit` (delivered to every other
connected socket), the engine calls made, and the exception, if any,
still propagating out of the sub-handler. -/
structure StepResult where
  state : HandlerState
  sent : List ServerMessage
  broadcast : List ServerMessage
  calls : List EngineCall
  thrown : Option ServerError
deriving DecidableEq, Repr

def HandlerState.hasTransport (s : HandlerState) (tid : String) : Bool :=
  s.transports.contains tid

def HandlerState.findProducer (s : HandlerState) (pid : String) : Option SProducer :=
  s.producers.find? (fun p => p.id == pid)

def HandlerState.findConsumer (s : HandlerState) (cid : String) : Option SConsumer :=
  s.consumers.find? (fun c => c.id == cid)

/-- Fresh ids for engine-created objects. -/
def freshId (tag : String) (n : Nat) : String := tag ++ toString n

/-- Closing one transport: the `observer close` and `transportclose`
callbacks delete the transport and every producer/consumer riding on it. -/
def closeTransport (s : HandlerState) (tid : String) : HandlerState :=
  { s with
    transports := s.transports.filter (fun t => t ≠ tid)
    producers := s.producers.filter (fun p => p.transportId ≠ tid)
    consumers := s.consumers.filter (fun c => c.transportId ≠ tid) }

/-- The `this.transports.forEach(transport => { transport.close(); ... })`
loop shared by `handleLeaveMessage` and `handleDisconnect`: every
transport in the (global, connection-unscoped) map is closed. -/
def closeAllTransports (s : HandlerState) : HandlerState × List EngineCall :=
  (s.transports.foldl (fun acc tid => closeTransport acc tid) s,
   s.transports.map EngineCall.transportClose)

/-- `handleJoinMessage`: creates the send and receive WebRTC transports
and replies with their parameters. -/
def handleJoinMessage (s : HandlerState) : StepResult :=
  let sendId := freshId "t" s.nextId
  let recvId := freshId "t" (s.nextId + 1)
  { state := { s with transports := s.transports ++ [sendId, recvId], nextId := s.nextId + 2 }
    sent := [ServerMessage.joinResponse sendId recvId]
    broadcast := []
    calls := [EngineCall.createTransport sendId, EngineCall.createTransport recvId]
    thrown := none }

/-- `handleLeaveMessage`: closes every transport in the map. It neither
emits a reply nor touches any room registry. -/
def handleLeaveMessage (s : HandlerState) : StepResult :=
  let closed := closeAllTransports s
  { state := closed.1, sent := [], broadcast := [], calls := closed.2, thrown := none }

/-- `handleDisconnect`: the transport-level disconnect path; its body is
the same transport-closing loop as `handleLeaveMessage`. -/
def handleDisconnect (s : HandlerState) : StepResult :=
  let closed := closeAllTransports s
  { state := closed.1, sent := [], broadcast := [], calls := closed.2, thrown := none }

/-- `handleTransportConnectMessage`: looks up the transport, validates
the DTLS parameters, then connects.  Its own `catch` emits an ERROR to
the requester and rethrows (so the caller's catch will fire again). -/
def handleTransportConnectMessage (s : HandlerState) (tid : String)
    (dtls : Option DtlsParameters) : StepResult :=
  if s.hasTransport tid = false then
    let e := ServerError.transportNotFound tid
    { state := s, sent := [ServerMessage.errorMsg e], broadcast := [], calls := [],
      thrown := some e }
  else if dtlsValid dtls = false then
    let e := ServerError.invalidDtlsParameters
    { state := s, sent := [ServerMessage.errorMsg e], broadcast := [], calls := [],
      thrown := some e }
  else
    { state := s
      sent := [ServerMessage.connectTransport tid]
      broadcast := []
      calls := [EngineCall.connectTransport tid]
      thrown := none }

/-- `handleTransportProduceMessage`: looks up the transport, produces,
stores the producer, replies with its id and broadcasts NEW_PRODUCER
via `socket.broadcast.emit`.  No internal catch: a lookup failure
propagates to `handleMessage`. -/
def handleTransportProduceMessage (s : HandlerState) (tid : String)
    (kind : MediaKind) : StepResult :=
  if s.hasTransport tid = false then
    { state := s, sent := [], broadcast := [], calls := [],
      thrown := some (ServerError.transportNotFound tid) }
  else
    let pid := freshId "p" s.nextId
    { state := { s with
        producers := s.producers ++ [{ id := pid, transportId := tid, kind := kind }]
        nextId := s.nextId + 1 }
      sent := [ServerMessage.produceReply pid kind]
      broadcast := [ServerMessage.newProducer pid kind]
      calls := [EngineCall.produce tid kind]
      thrown := none }

/-- `handleTransportConsumeMessage`: looks up the transport, then the
producer; consumes with `paused: true`, stores the consumer, replies
CONSUME, and then immediately awaits `consumer.resume()`. -/
def handleTransportConsumeMessage (s : HandlerState) (tid pid : String) : StepResult :=
  if s.hasTransport tid = false then
    { state := s, sent := [], broadcast := [], calls := [],
      thrown := some (ServerError.transportNotFound tid) }
  else
    match s.findProducer pid with
    | none =>
      { state := s, sent := [], broadcast := [], calls := [],
        thrown := some (ServerError.producerNotFound pid) }
    | some producer =>
      let cid := freshId "c" s.nextId
      let created : SConsumer :=
        { id := cid, transportId := tid, producerId := producer.id
          kind := producer.kind, paused := true }
      let stored := s.consumers ++ [created]
      let afterResume := stored.map (fun c => if c.id == cid then { c with paused := false } else c)
      { state := { s with consumers := afterResume, nextId := s.nextId + 1 }
        sent := [ServerMessage.consumeReply cid producer.id producer.kind]
        broadcast := []
        calls := [EngineCall.consume tid producer.id true, EngineCall.consumerResume cid]
        thrown := none }

/-- `handleResumeMessage`: looks up the consumer and resumes it. -/
def handleResumeMessage (s : HandlerState) (cid : String) : StepResult :=
  match s.findConsumer cid with
  | none =>
    { state := s, sent := [], broadcast := [], calls := [],
      thrown := some (ServerError.consumerNotFound cid) }
  | some _ =>
    { state := { s with
        consumers := s.consumers.map (fun c => if c.id == cid then { c with paused := false } else c) }
      sent := [], broadcast := []
      calls := [EngineCall.consumerResume cid]
      thrown := none }

/-- `handlePauseMessage`: looks up the consumer and pauses it. -/
def handlePauseMessage (s : HandlerState) (cid : String) : StepResult :=
  match s.findConsumer cid with
  | none =>
    { state := s, sent := [], broadcast := [], calls := [],
      thrown := some (ServerError.consumerNotFound cid) }
  | some _ =>
    { state := { s with
        consumers := s.consumers.map (fun c => if c.id == cid then { c with paused := true } else c) }
      sent := [], broadcast := []
      calls := [EngineCall.consumerPause cid]
      thrown := none }

/-- The `switch` in `handleMessage` dispatching on the message type. -/
def dispatchMessage (s : HandlerState) : ClientMessage → StepResult
  | ClientMessage.join _ _ => handleJoinMessage s
  | ClientMessage.leave _ => handleLeaveMessage s
  | ClientMessage.transportConnect tid d => handleTransportConnectMessage s tid d
  | ClientMessage.transportProduce tid k => handleTransportProduceMessage s tid k
  | ClientMessage.transportConsume tid pid => handleTransportConsumeMessage s tid pid
  | ClientMessage.resume cid => handleResumeMessage s cid
  | ClientMessage.pause cid => handlePauseMessage s cid

/-- `handleMessage` with its outer `try/catch`: any exception escaping a
sub-handler is caught here and answered with one ERROR message. -/
def handleMessage (s : HandlerState) (m : ClientMessage) : StepResult :=
  let r := dispatchMessage s m
  match r.thrown with
  | some e => { r with sent := r.sent ++ [ServerMessage.errorMsg e], thrown := none }
  | none => r

/-- Delivery of `socket.broadcast.emit`: every connected socket other
than the requester receives each broadcast message, regardless of rooms. -/
def deliveries (connectedSockets : List String) (requester : String)
    (r : StepResult) : List (String × ServerMessage) :=
  (connectedSockets.filter (fun sid => sid ≠ requester)).flatMap
    (fun sid => r.broadcast.map (fun m => (sid, m)))

/-!  Room manager (`src/server/src/room-manager.ts`).  Rooms live in a
`Map<string, Room>`; participants of a room in a `Map<UserId, Participant>`.
Both are modelled as insertion-ordered lists with the JS `Map.set`
replace-or-append semantics.  Note that `index.ts` wires the socket
events only to the `SignalingHandler`; no code path constructs or calls
a `RoomManager`, so its operations are verified on their own state. -/

/-- A participant entry of a room's participant map. -/
structure RMParticipant where
  userId : String
  socketId : String
deriving DecidableEq, Repr

/-- A room of the room registry. -/
structure Room where
  id : String
  participants : List RMParticipant
deriving DecidableEq, Repr

/-- `getRoom`: lookup by id (first match, and JS maps have unique keys). -/
def getRoomL (rooms : List Room) (rid : String) : Option Room :=
  rooms.find? (fun r => r.id == rid)

/-- Replace the (first) room with the given id, mirroring in-place
mutation of the object returned by `getRoom`. -/
def updateRooms : List Room → String → Room → List Room
  | [], _, _ => []
  | r :: rest, rid, newRoom =>
    if r.id == rid then newRoom :: rest else r :: updateRooms rest rid newRoom

/-- `Map.set` on the participant map: replace an existing binding for
the user id, otherwise append. -/
def setParticipant (ps : List RMParticipant) (p : RMParticipant) : List RMParticipant :=
  if ps.any (fun q => q.userId == p.userId) then
    ps.map (fun q => if q.userId == p.userId then p else q)
  else ps ++ [p]

/-- `createRoom`: throws if the room already exists, otherwise registers
an (empty) room. -/
def createRoom (rooms : List Room) (rid : String) : Except String (List Room) :=
  if (getRoomL rooms rid).isSome then Except.error "room already exists"
  else Except.ok (rooms ++ [{ id := rid, participants := [] }])

/-- `addParticipant`: throws if the room is missing, otherwise `Map.set`s
the participant into the room (replacing any existing entry for the
same user id). -/
def addParticipantL (rooms : List Room) (rid sockId uid : String) :
    Except String (List Room) :=
  match getRoomL rooms rid with
  | none => Except.error "room not found"
  | some room =>
    let p : RMParticipant := { userId := uid, socketId := sockId }
    Except.ok (updateRooms rooms rid
      { room with participants := setParticipant room.participants p })

/-- `removeParticipant`: returns silently if the room or the participant
is missing; otherwise deletes the participant, and deletes the room
when its participant map became empty. -/
def removeParticipantL (rooms : List Room) (rid uid : String) : List Room :=
  match getRoomL rooms rid with
  | none => rooms
  | some room =>
    match room.participants.find? (fun p => p.userId == uid) with
    | none => rooms
    | some _ =>
      let remaining := room.participants.filter (fun p => p.userId ≠ uid)
      if remaining.isEmpty then rooms.filter (fun r => r.id ≠ rid)
      else updateRooms rooms rid { room with participants := remaining }

/-- `getParticipantCount`: `getRoom(roomId)?.participants.size ?? 0`. -/
def getParticipantCountL (rooms : List Room) (rid : String) : Nat :=
  match getRoomL rooms rid with
  | none => 0
  | some room => room.participants.length

/-- Whether a user is currently a participant of a room. -/
def memberL (rooms : List Room) (rid uid : String) : Bool :=
  match getRoomL rooms rid with
  | none => false
  | some room => room.participants.any (fun p => p.userId == uid)

/-!  The whole server process: `index.ts` holds the `SignalingHandler`;
a room registry is carried alongside to talk about room membership.
Neither the LEAVE handler nor the disconnect handler references it. -/

/-- Combined server state: the signaling handler's maps plus the room
registry. -/
structure ServerState where
  handler : HandlerState
  rooms : List Room
deriving DecidableEq, Repr

/-- End state of the transport-level disconnect path (`socket.on
('disconnect')` calls only `signalingHandler.handleDisconnect`). -/
def serverDisconnect (s : ServerState) : ServerState :=
  { s with handler := (handleDisconnect s.handler).state }

/-- End state of handling a LEAVE message (`handleMessage` dispatching
to `handleLeaveMessage`). -/
def serverLeave (s : ServerState) (uid : String) : ServerState :=
  { s with handler := (handleMessage s.handler (ClientMessage.leave uid)).state }

/-!  Client connection-status state machine
(`src/src/sdk/video-call-client.ts`).  Only the parts that decide the
CONNECTED transition are modelled: the `connectionstatechange` and
`dtlsstatechange` handlers installed on the two transports, the
CONNECT_TRANSPORT acknowledgment handler, and the periodic
`checkTransportsStatus` timer. -/

/-- The SDK's `ConnectionStatus` enum. -/
inductive ConnectionStatus
  | disconnected
  | connecting
  | connected
  | reconnecting
  | errorStatus
deriving DecidableEq, Repr

/-- WebRTC transport connection states as reported to
`connectionstatechange` / `dtlsstatechange`. -/
inductive TransportConnState
  | fresh        -- the initial state named new
  | connecting
  | connected
  | disconnected
  | failed
  | closed
deriving DecidableEq, Repr

/-- The client fields that the CONNECTED decision reads and writes. -/
structure ClientConnState where
  status : ConnectionStatus
  connectedTransportsCount : Nat
  sendState : TransportConnState
  recvState : TransportConnState
deriving DecidableEq, Repr

/-- `setConnectionStatus` stores the status (and emits
`connectionStatusChanged` when it changed; the stored value is the same
either way). -/
def setConnectionStatus (s : ClientConnState) (st : ConnectionStatus) : ClientConnState :=
  { s with status := st }

/-- The events that drive the CONNECTED decision. -/
inductive ClientEvent
  | sendConnectionStateChange (st : TransportConnState)
  | recvConnectionStateChange (st : TransportConnState)
  | sendDtlsStateChange (st : TransportConnState)
  | recvDtlsStateChange (st : TransportConnState)
  | connectTransportAck
  | transportsStatusCheck
deriving DecidableEq, Repr

/-- One client step.  From the source: either transport's
`connectionstatechange` to connected sets CONNECTED; the send
transport's `dtlsstatechange` to connected sets CONNECTED (the receive
transport's dtls handler only logs); `handleConnectTransportMessage`
increments `connectedTransportsCount` and sets CONNECTED when the count
reaches 2 or either transport is already physically connected; the
`checkTransportsStatus` timer sets CONNECTED when either transport is
connected. -/
def clientStep (s : ClientConnState) : ClientEvent → ClientConnState
  | ClientEvent.sendConnectionStateChange st =>
    let s2 := { s with sendState := st }
    if st = TransportConnState.connected then setConnectionStatus s2 ConnectionStatus.connected
    else s2
  | ClientEvent.recvConnectionStateChange st =>
    let s2 := { s with recvState := st }
    if st = TransportConnState.connected then setConnectionStatus s2 ConnectionStatus.connected
    else s2
  | ClientEvent.sendDtlsStateChange st =>
    if st = TransportConnState.connected then setConnectionStatus s ConnectionStatus.connected
    else s
  | ClientEvent.recvDtlsStateChange _ => s
  | ClientEvent.connectTransportAck =>
    let s2 := { s with connectedTransportsCount := s.connectedTransportsCount + 1 }
    if s2.connectedTransportsCount ≥ 2 then
      setConnectionStatus s2 ConnectionStatus.connected
    else if s2.sendState = TransportConnState.connected ∨
            s2.recvState = TransportConnState.connected then
      setConnectionStatus s2 ConnectionStatus.connected
    else s2
  | ClientEvent.transportsStatusCheck =>
    if s.sendState = TransportConnState.connected ∨
       s.recvState = TransportConnState.connected then
      setConnectionStatus s ConnectionStatus.connected
    else s

/-- The exact condition under which a step asserts CONNECTED, read off
the same handlers. -/
def connectedTrigger (s : ClientConnState) : ClientEvent → Bool
  | ClientEvent.sendConnectionStateChange st => st == TransportConnState.connected
  | ClientEvent.recvConnectionStateChange st => st == TransportConnState.connected
  | ClientEvent.sendDtlsStateChange st => st == TransportConnState.connected
  | ClientEvent.recvDtlsStateChange _ => false
  | ClientEvent.connectTransportAck =>
    decide (s.connectedTransportsCount + 1 ≥ 2) ||
      s.sendState == TransportConnState.connected ||
      s.recvState == TransportConnState.connected
  | ClientEvent.transportsStatusCheck =>
    s.sendState == TransportConnState.connected ||
      s.recvState == TransportConnState.connected

/-- The client state right after JOIN processing started: CONNECTING,
no acknowledgments counted, both transports in their initial state. -/
def clientInit : ClientConnState :=
  { status := ConnectionStatus.connecting
    connectedTransportsCount := 0
    sendState := TransportConnState.fresh
    recvState := TransportConnState.fresh }

/-!  Async event queue (`src/src/sdk/events/event-queue.ts`).  A task's
asynchronous body is abstracted as a number of suspension points
(`steps`) followed by fulfillment or rejection (`fails`).  The
scheduler is an explicit event trace: `enq` is a call to `enqueue`,
`tick` advances the currently awaited body by one suspension (or
completes it, firing the `catch`/`finally` of `processNext`). -/

/-- A queued task. -/
structure QTask where
  id : Nat
  steps : Nat
  fails : Bool
deriving DecidableEq, Repr

/-- The queue's state: the pending array, the `processing` and `paused`
flags, the task whose `execute()` is currently being awaited, and audit
logs of arrivals, completions and caught errors. -/
structure QueueState where
  queue : List QTask
  processing : Bool
  paused : Bool
  running : Option QTask
  completed : List Nat
  caught : List Nat
  arrivals : List Nat
deriving DecidableEq, Repr

def qinit : QueueState :=
  { queue := [], processing := false, paused := false, running := none
    completed := [], caught := [], arrivals := [] }

/-- `processNext`: returns if already processing, paused or empty;
otherwise sets `processing`, shifts the head task and starts awaiting
its body. -/
def processNext (s : QueueState) : QueueState :=
  if s.processing || s.paused then s
  else
    match s.queue with
    | [] => s
    | t :: rest => { s with processing := true, queue := rest, running := some t }

/-- `enqueue`: pushes the task and calls `processNext`. -/
def qenqueue (s : QueueState) (t : QTask) : QueueState :=
  processNext { s with queue := s.queue ++ [t], arrivals := s.arrivals ++ [t.id] }

/-- One scheduler advance of the awaited body.  When the body finishes,
a rejection is caught (and logged), and the `finally` clears
`processing` and calls `processNext` — so the next pending task starts
regardless of the failure. -/
def qtick (s : QueueState) : QueueState :=
  match s.running with
  | none => s
  | some t =>
    if t.steps = 0 then
      processNext { s with running := none, processing := false
                           completed := s.completed ++ [t.id]
                           caught := if t.fails then s.caught ++ [t.id] else s.caught }
    else { s with running := some { t with steps := t.steps - 1 } }

/-- `pause`. -/
def qpause (s : QueueState) : QueueState := { s with paused := true }

/-- `resume`: clears the flag and calls `processNext`. -/
def qresume (s : QueueState) : QueueState :=
  if s.paused then processNext { s with paused := false } else s

/-- External events driving the queue. -/
inductive QEvent
  | enq (t : QTask)
  | tick
  | pauseQ
  | resumeQ
deriving DecidableEq, Repr

def qstep (s : QueueState) : QEvent → QueueState
  | QEvent.enq t => qenqueue s t
  | QEvent.tick => qtick s
  | QEvent.pauseQ => qpause s
  | QEvent.resumeQ => qresume s

def qrun (es : List QEvent) : QueueState := es.foldl qstep qinit

/-- Iterated scheduler ticks. -/
def qticks : Nat → QueueState → QueueState
  | 0, s => s
  | n + 1, s => qticks n (qtick s)

/-- Remaining scheduler work for one task. -/
def taskCost (t : QTask) : Nat := t.steps + 1

/-- Remaining scheduler work in the whole queue. -/
def qmeasure (s : QueueState) : Nat :=
  (match s.running with
   | none => 0
   | some t => taskCost t) + (s.queue.map taskCost).sum

/-- Id of the task currently being awaited, as a list. -/
def runIds : Option QTask → List Nat
  | none => []
  | some t => [t.id]

/-- The queue invariant: arrivals decompose into completions, the
possibly running task and the pending queue (in that order); the
`processing` flag tracks exactly whether a body is being awaited; and
an idle unpaused queue has no pending tasks. -/
def QInv (s : QueueState) : Prop :=
  s.arrivals = s.completed ++ runIds s.running ++ s.queue.map QTask.id
  ∧ s.processing = s.running.isSome
  ∧ (s.processing = false → s.paused = false → s.queue = [])

/-!  Typed event emitter (`src/src/sdk/events/typed-event-emitter.ts`).
A registered listener is abstracted by the value it computes from the
payload (its observable action, appended to a log when the callback is
invoked) and whether it then throws. -/

/-- A registered listener. -/
structure Listener (α β : Type) where
  out : α → β
  throws : α → Bool

/-- `SimpleEventEmitter.emit`: `callbacks.forEach` invoking each
callback inside `try { callback(payload) } catch { console.error }`;
an exception from a callback is caught and the iteration continues. -/
def emitRun {α β : Type} (ls : List (Listener α β)) (payload : α)
    (log : List β) : Except String (List β) :=
  match ls with
  | [] => Except.ok log
  | l :: rest =>
    let log2 := log ++ [l.out payload]
    let attempt : Except String Unit :=
      if l.throws payload then Except.error "listener threw" else Except.ok ()
    match attempt with
    | Except.ok _ => emitRun rest payload log2
    | Except.error _ => emitRun rest payload log2

/-!  Derived notions used by the claim statements. -/

/-- The engine-state-mutating requests named by the spec contract. -/
def isMutating : ClientMessage → Bool
  | ClientMessage.transportConnect _ _ => true
  | ClientMessage.transportProduce _ _ => true
  | ClientMessage.transportConsume _ _ => true
  | _ => false

/-- Terminal responses: a success reply matching one of the mutating
requests, or an ERROR. -/
def isTerminalResponse : ServerMessage → Bool
  | ServerMessage.connectTransport _ => true
  | ServerMessage.produceReply _ _ => true
  | ServerMessage.consumeReply _ _ _ => true
  | ServerMessage.errorMsg _ => true
  | _ => false

/-- Whether a message is a TRANSPORT_CONNECT that the handler rejects
(unknown transport or invalid DTLS parameters). -/
def connectRejected (s : HandlerState) : ClientMessage → Bool
  | ClientMessage.transportConnect tid d => !(s.hasTransport tid) || !(dtlsValid d)
  | _ => false

/-!  Theorems. -/

/-- C1 counterexample: a TRANSPORT_CONNECT for an unknown transport id
is answered with TWO terminal (ERROR) messages on the requesting
socket: `handleTransportConnectMessage` emits one in its own catch and
rethrows, and the catch in `handleMessage` emits a second one. -/
theorem claim1_counterexample :
    (handleMessage { transports := [], producers := [], consumers := [], nextId := 0 }
        (ClientMessage.transportConnect "t1" none)).sent
      = [ServerMessage.errorMsg (ServerError.transportNotFound "t1"),
         ServerMessage.errorMsg (ServerError.transportNotFound "t1")]
    ∧ ((handleMessage { transports := [], producers := [], consumers := [], nextId := 0 }
        (ClientMessage.transportConnect "t1" none)).sent.countP
          (fun m => isTerminalResponse m)) = 2 := by
  decide

/-- C1 amended: every mutating request receives at least one terminal
response; it is exactly one, except a rejected TRANSPORT_CONNECT, which
is answered with exactly two identical ERROR messages. -/
theorem claim1_amended (s : HandlerState) (m : ClientMessage)
    (h : isMutating m = true) :
    (connectRejected s m = false
      ∧ ((handleMessage s m).sent.countP (fun x => isTerminalResponse x)) = 1)
    ∨ (connectRejected s m = true
      ∧ ∃ e, (handleMessage s m).sent
          = [ServerMessage.errorMsg e, ServerMessage.errorMsg e]) := by
  cases m with
  | transportConnect tid d =>
    by_cases hT : s.hasTransport tid
    · by_cases hD : dtlsValid d
      · left
        simp [connectRejected, hT, hD, handleMessage, dispatchMessage,
          handleTransportConnectMessage, isTerminalResponse]
      · right
        constructor
        · simp [connectRejected, hT, hD]
        · refine ⟨ServerError.invalidDtlsParameters, ?_⟩
          simp [handleMessage, dispatchMessage, handleTransportConnectMessage,
            hT, hD]
    · right
      constructor
      · simp [connectRejected, hT]
      · refine ⟨ServerError.transportNotFound tid, ?_⟩
        simp [handleMessage, dispatchMessage, handleTransportConnectMessage,
          hT]
  | transportProduce tid k =>
    left
    refine ⟨rfl, ?_⟩
    by_cases hT : s.hasTransport tid
    · simp [handleMessage, dispatchMessage, handleTransportProduceMessage, hT,
        isTerminalResponse]
    · simp [handleMessage, dispatchMessage, handleTransportProduceMessage, hT,
        isTerminalResponse]
  | transportConsume tid pid =>
    left
    refine ⟨rfl, ?_⟩
    by_cases hT : s.hasTransport tid
    · cases hP : s.findProducer pid with
      | none =>
        simp [handleMessage, dispatchMessage, handleTransportConsumeMessage,
          hT, hP, isTerminalResponse]
      | some producer =>
        simp [handleMessage, dispatchMessage, handleTransportConsumeMessage,
          hT, hP, isTerminalResponse]
    · simp [handleMessage, dispatchMessage, handleTransportConsumeMessage, hT,
        isTerminalResponse]
  | join a b => simp [isMutating] at h
  | leave a => simp [isMutating] at h
  | resume a => simp [isMutating] at h
  | pause a => simp [isMutating] at h

/-- C1 witness: the amended statement at a concrete accepted request. -/
theorem claim1_amended_witness :
    isMutating (ClientMessage.transportProduce "t0" MediaKind.video) = true
    ∧ ((connectRejected { transports := ["t0"], producers := [], consumers := [], nextId := 1 }
          (ClientMessage.transportProduce "t0" MediaKind.video) = false
        ∧ ((handleMessage { transports := ["t0"], producers := [], consumers := [], nextId := 1 }
            (ClientMessage.transportProduce "t0" MediaKind.video)).sent.countP
              (fun x => isTerminalResponse x)) = 1)
      ∨ (connectRejected { transports := ["t0"], producers := [], consumers := [], nextId := 1 }
          (ClientMessage.transportProduce "t0" MediaKind.video) = true
        ∧ ∃ e, (handleMessage { transports := ["t0"], producers := [], consumers := [], nextId := 1 }
            (ClientMessage.transportProduce "t0" MediaKind.video)).sent
              = [ServerMessage.errorMsg e, ServerMessage.errorMsg e])) :=
  ⟨by decide, claim1_amended _ _ (by decide)⟩

/-- C2 counterexample: a TRANSPORT_CONSUME whose producer id is unknown
is not always answered with ProducerNotFound — the transport lookup
runs first, so when the transport id is also unknown the error is
TransportNotFound. -/
theorem claim2_counterexample :
    HandlerState.findProducer
        { transports := [], producers := [], consumers := [], nextId := 0 } "p0" = none
    ∧ (handleMessage { transports := [], producers := [], consumers := [], nextId := 0 }
        (ClientMessage.transportConsume "t0" "p0")).sent
      = [ServerMessage.errorMsg (ServerError.transportNotFound "t0")] := by
  decide

/-- C2 amended: when the transport exists, a TRANSPORT_CONSUME for a
producer id absent from the producer registry fails with
ProducerNotFound, makes no engine call and leaves the state (including
the consumer registry) unchanged. -/
theorem claim2_amended (s : HandlerState) (tid pid : String)
    (hT : s.hasTransport tid = true) (hP : s.findProducer pid = none) :
    handleMessage s (ClientMessage.transportConsume tid pid)
      = { state := s
          sent := [ServerMessage.errorMsg (ServerError.producerNotFound pid)]
          broadcast := [], calls := []
          thrown := none } := by
  simp [handleMessage, dispatchMessage, handleTransportConsumeMessage, hT, hP]

/-- C2 witness: the amended statement at a concrete state holding the
transport but not the producer. -/
theorem claim2_amended_witness :
    HandlerState.hasTransport
        { transports := ["t0"], producers := [], consumers := [], nextId := 1 } "t0" = true
    ∧ HandlerState.findProducer
        { transports := ["t0"], producers := [], consumers := [], nextId := 1 } "p9" = none
    ∧ handleMessage { transports := ["t0"], producers := [], consumers := [], nextId := 1 }
        (ClientMessage.transportConsume "t0" "p9")
      = { state := { transports := ["t0"], producers := [], consumers := [], nextId := 1 }
          sent := [ServerMessage.errorMsg (ServerError.producerNotFound "p9")]
          broadcast := [], calls := []
          thrown := none } :=
  ⟨by decide, by decide, claim2_amended _ "t0" "p9" (by decide) (by decide)⟩

/-- C3 counterexample: a TRANSPORT_CONNECT with absent DTLS parameters
is not always rejected with InvalidHandshakeParameters — the transport
lookup runs first, so with an unknown transport id the error is
TransportNotFound (emitted twice, by the sub-handler and by the outer
catch). -/
theorem claim3_counterexample :
    dtlsValid none = false
    ∧ (handleMessage { transports := [], producers := [], consumers := [], nextId := 0 }
        (ClientMessage.transportConnect "t0" none)).sent
      = [ServerMessage.errorMsg (ServerError.transportNotFound "t0"),
         ServerMessage.errorMsg (ServerError.transportNotFound "t0")] := by
  decide

/-- C3 amended: when the transport exists, a TRANSPORT_CONNECT whose
DTLS parameters are absent or lack fingerprints or role is rejected
with InvalidHandshakeParameters (the ERROR is emitted twice, per C1)
and `connectTransport` is never invoked; the state is unchanged. -/
theorem claim3_amended (s : HandlerState) (tid : String) (d : Option DtlsParameters)
    (hT : s.hasTransport tid = true) (hD : dtlsValid d = false) :
    handleMessage s (ClientMessage.transportConnect tid d)
      = { state := s
          sent := [ServerMessage.errorMsg ServerError.invalidDtlsParameters,
                   ServerMessage.errorMsg ServerError.invalidDtlsParameters]
          broadcast := [], calls := []
          thrown := none } := by
  simp [handleMessage, dispatchMessage, handleTransportConnectMessage, hT, hD]

/-- C3 witness: the amended statement at a concrete state, with DTLS
parameters that lack a role. -/
theorem claim3_amended_witness :
    HandlerState.hasTransport
        { transports := ["t0"], producers := [], consumers := [], nextId := 1 } "t0" = true
    ∧ dtlsValid (some { fingerprints := some ["f"], role := none }) = false
    ∧ handleMessage { transports := ["t0"], producers := [], consumers := [], nextId := 1 }
        (ClientMessage.transportConnect "t0" (some { fingerprints := some ["f"], role := none }))
      = { state := { transports := ["t0"], producers := [], consumers := [], nextId := 1 }
          sent := [ServerMessage.errorMsg ServerError.invalidDtlsParameters,
                   ServerMessage.errorMsg ServerError.invalidDtlsParameters]
          broadcast := [], calls := []
          thrown := none } :=
  ⟨by decide, by decide, claim3_amended _ "t0" _ (by decide) (by decide)⟩

/-- Auxiliary: folding `closeTransport` over a list covering every
transport of the state empties the transport map. -/
theorem foldl_closeTransport_transports (l : List String) (s : HandlerState)
    (h : ∀ t ∈ s.transports, t ∈ l) :
    (l.foldl (fun acc tid => closeTransport acc tid) s).transports = [] := by
  induction l generalizing s with
  | nil =>
    simp only [List.foldl_nil]
    cases hq : s.transports with
    | nil => rfl
    | cons t rest =>
      exact absurd (h t (by simp [hq])) (by simp)
  | cons tid l2 ih =>
    simp only [List.foldl_cons]
    apply ih
    intro t ht
    simp only [closeTransport, List.mem_filter] at ht
    rcases ht with ⟨ht1, ht2⟩
    have := h t ht1
    simp only [List.mem_cons] at this
    rcases this with h3 | h3
    · exact absurd h3 (by simpa using ht2)
    · exact h3

/-- Auxiliary: the disconnect path empties the transport map. -/
theorem handleDisconnect_transports (s : HandlerState) :
    (handleDisconnect s).state.transports = [] := by
  apply foldl_closeTransport_transports
  intro t ht
  exact ht

/-- C4 counterexample: the disconnect path does NOT remove the
participant from rooms — after a disconnect the user is still a member
of its room (no code path on disconnect or LEAVE touches the room
registry). -/
theorem claim4_counterexample :
    memberL (serverDisconnect
        { handler := { transports := ["t0"], producers := [], consumers := [], nextId := 1 }
          rooms := [{ id := "r", participants := [{ userId := "u", socketId := "sock1" }] }] }).rooms
      "r" "u" = true
    ∧ (serverDisconnect
        { handler := { transports := ["t0"], producers := [], consumers := [], nextId := 1 }
          rooms := [{ id := "r", participants := [{ userId := "u", socketId := "sock1" }] }] }).rooms
      = [{ id := "r", participants := [{ userId := "u", socketId := "sock1" }] }] := by
  decide

/-- C4 amended: disconnecting without LEAVE produces exactly the same
end state as handling a LEAVE message — both paths close every
transport in the handler's global transport map (emptying it, with the
producers and consumers riding on those transports) — but neither path
removes the participant from any room: the room registry is untouched. -/
theorem claim4_amended (s : ServerState) (uid : String) :
    serverDisconnect s = serverLeave s uid
    ∧ (serverDisconnect s).handler.transports = []
    ∧ (serverDisconnect s).rooms = s.rooms := by
  refine ⟨rfl, ?_, rfl⟩
  exact handleDisconnect_transports s.handler

/-- Auxiliary: flat-mapping a singleton-producing function is a map. -/
theorem flatMap_single {α β : Type} (l : List α) (f : α → β) :
    l.flatMap (fun a => [f a]) = l.map f := by
  induction l with
  | nil => rfl
  | cons a l2 ih => simp [List.flatMap_cons, ih]

/-- C6 counterexample: NEW_PRODUCER is broadcast with
`socket.broadcast.emit`, which reaches every other connected socket
regardless of rooms: with requester a assigned to room r1 (of which it
is the only member) and socket b assigned to room r2, b still receives
NEW_PRODUCER — so the broadcast is neither room-scoped nor suppressed
when the requester is its room's only member. -/
theorem claim6_counterexample :
    (([("a", "r1"), ("b", "r2")].filter (fun q => q.2 == "r1")).map Prod.fst = ["a"])
    ∧ deliveries ["a", "b"] "a"
        (handleMessage { transports := ["t0"], producers := [], consumers := [], nextId := 1 }
          (ClientMessage.transportProduce "t0" MediaKind.video))
      = [("b", ServerMessage.newProducer "p1" MediaKind.video)] := by
  decide

/-- C6 amended: on a successful TRANSPORT_PRODUCE the server replies to
the requester with the fresh producer id and broadcasts NEW_PRODUCER to
every other connected socket — the broadcast is server-wide, not
scoped to the requester's room, and is sent whenever any other socket
is connected, even if the requester is its room's only member. -/
theorem claim6_amended (connectedSockets : List String) (requester : String)
    (s : HandlerState) (tid : String) (kind : MediaKind)
    (hT : s.hasTransport tid = true) :
    (handleMessage s (ClientMessage.transportProduce tid kind)).sent
      = [ServerMessage.produceReply (freshId "p" s.nextId) kind]
    ∧ deliveries connectedSockets requester
        (handleMessage s (ClientMessage.transportProduce tid kind))
      = (connectedSockets.filter (fun sid => sid ≠ requester)).map
          (fun sid => (sid, ServerMessage.newProducer (freshId "p" s.nextId) kind)) := by
  constructor
  · simp [handleMessage, dispatchMessage, handleTransportProduceMessage, hT]
  · simp only [handleMessage, dispatchMessage, handleTransportProduceMessage, hT,
      Bool.true_eq_false, if_false, deliveries]
    exact flatMap_single _ _

/-- C6 witness: the amended statement at a concrete input with two
connected sockets. -/
theorem claim6_amended_witness :
    HandlerState.hasTransport
        { transports := ["t0"], producers := [], consumers := [], nextId := 1 } "t0" = true
    ∧ ((handleMessage { transports := ["t0"], producers := [], consumers := [], nextId := 1 }
          (ClientMessage.transportProduce "t0" MediaKind.audio)).sent
        = [ServerMessage.produceReply (freshId "p" 1) MediaKind.audio]
      ∧ deliveries ["a", "b"] "a"
          (handleMessage { transports := ["t0"], producers := [], consumers := [], nextId := 1 }
            (ClientMessage.transportProduce "t0" MediaKind.audio))
        = ((["a", "b"].filter (fun sid => sid ≠ "a")).map
            (fun sid => (sid, ServerMessage.newProducer (freshId "p" 1) MediaKind.audio)))) :=
  ⟨by decide, claim6_amended ["a", "b"] "a" _ "t0" MediaKind.audio (by decide)⟩

/-- C7 counterexample: immediately after a successful TRANSPORT_CONSUME
— before any RESUME message is handled — the stored consumer is
already unpaused and the engine has already received a resume call:
`handleTransportConsumeMessage` awaits `consumer.resume()` right after
emitting the CONSUME reply. -/
theorem claim7_counterexample :
    (handleMessage
        { transports := ["t0"]
          producers := [{ id := "p0", transportId := "t0", kind := MediaKind.video }]
          consumers := [], nextId := 1 }
        (ClientMessage.transportConsume "t0" "p0")).state.consumers
      = [{ id := "c1", transportId := "t0", producerId := "p0"
           kind := MediaKind.video, paused := false }]
    ∧ EngineCall.consumerResume "c1" ∈ (handleMessage
        { transports := ["t0"]
          producers := [{ id := "p0", transportId := "t0", kind := MediaKind.video }]
          consumers := [], nextId := 1 }
        (ClientMessage.transportConsume "t0" "p0")).calls := by
  decide

/-- C7 amended: on a successful TRANSPORT_CONSUME the Consumer is
created in the paused state (the engine consume call carries
`paused: true`) and the CONSUME reply is emitted, but the handler then
immediately resumes the consumer itself — the stored consumer ends the
request unpaused, without waiting for any RESUME message. -/
theorem claim7_amended (s : HandlerState) (tid pid : String) (producer : SProducer)
    (hT : s.hasTransport tid = true) (hP : s.findProducer pid = some producer) :
    (handleMessage s (ClientMessage.transportConsume tid pid)).calls
      = [EngineCall.consume tid producer.id true,
         EngineCall.consumerResume (freshId "c" s.nextId)]
    ∧ (handleMessage s (ClientMessage.transportConsume tid pid)).sent
      = [ServerMessage.consumeReply (freshId "c" s.nextId) producer.id producer.kind]
    ∧ (handleMessage s (ClientMessage.transportConsume tid pid)).state.consumers
      = s.consumers.map
          (fun c => if c.id == freshId "c" s.nextId then { c with paused := false } else c)
        ++ [{ id := freshId "c" s.nextId, transportId := tid, producerId := producer.id
              kind := producer.kind, paused := false }] := by
  refine ⟨?_, ?_, ?_⟩
  · simp [handleMessage, dispatchMessage, handleTransportConsumeMessage, hT, hP]
  · simp [handleMessage, dispatchMessage, handleTransportConsumeMessage, hT, hP]
  · simp [handleMessage, dispatchMessage, handleTransportConsumeMessage, hT, hP]

/-- C7 witness: the amended statement at a concrete state holding the
transport and the producer. -/
theorem claim7_amended_witness :
    HandlerState.hasTransport
        { transports := ["t0"]
          producers := [{ id := "p0", transportId := "t0", kind := MediaKind.video }]
          consumers := [], nextId := 1 } "t0" = true
    ∧ HandlerState.findProducer
        { transports := ["t0"]
          producers := [{ id := "p0", transportId := "t0", kind := MediaKind.video }]
          consumers := [], nextId := 1 } "p0"
      = some { id := "p0", transportId := "t0", kind := MediaKind.video }
    ∧ ((handleMessage
          { transports := ["t0"]
            producers := [{ id := "p0", transportId := "t0", kind := MediaKind.video }]
            consumers := [], nextId := 1 }
          (ClientMessage.transportConsume "t0" "p0")).calls
        = [EngineCall.consume "t0" "p0" true, EngineCall.consumerResume (freshId "c" 1)]
      ∧ (handleMessage
          { transports := ["t0"]
            producers := [{ id := "p0", transportId := "t0", kind := MediaKind.video }]
            consumers := [], nextId := 1 }
          (ClientMessage.transportConsume "t0" "p0")).sent
        = [ServerMessage.consumeReply (freshId "c" 1) "p0" MediaKind.video]
      ∧ (handleMessage
          { transports := ["t0"]
            producers := [{ id := "p0", transportId := "t0", kind := MediaKind.video }]
            consumers := [], nextId := 1 }
          (ClientMessage.transportConsume "t0" "p0")).state.consumers
        = ([] : List SConsumer).map
            (fun c => if c.id == freshId "c" 1 then { c with paused := false } else c)
          ++ [{ id := freshId "c" 1, transportId := "t0", producerId := "p0"
                kind := MediaKind.video, paused := false }]) :=
  ⟨by decide, by decide,
    claim7_amended _ "t0" "p0" { id := "p0", transportId := "t0", kind := MediaKind.video }
      (by decide) (by decide)⟩

/-- Auxiliary: a room found by id matches that id. -/
theorem getRoomL_some_id (rooms : List Room) (rid : String) (room : Room)
    (h : getRoomL rooms rid = some room) : (room.id == rid) = true := by
  have h2 := List.find?_some h
  simpa using h2

/-- Auxiliary: replacing the found room makes the replacement the one
found afterwards, provided its id still matches. -/
theorem getRoomL_updateRooms (rooms : List Room) (rid : String) (room r2 : Room)
    (h : getRoomL rooms rid = some room) (h2 : (r2.id == rid) = true) :
    getRoomL (updateRooms rooms rid r2) rid = some r2 := by
  induction rooms with
  | nil => simp [getRoomL] at h
  | cons r rest ih =>
    cases hr : r.id == rid with
    | true => simp [updateRooms, hr, getRoomL, List.find?, h2]
    | false =>
      simp only [updateRooms, hr, Bool.false_eq_true, if_false]
      simp only [getRoomL, List.find?, hr] at h ⊢
      exact ih h

/-- Auxiliary: after filtering out every room with the given id, the
lookup finds nothing. -/
theorem getRoomL_filter_ne (rooms : List Room) (rid : String) :
    getRoomL (rooms.filter (fun r => r.id ≠ rid)) rid = none := by
  induction rooms with
  | nil => rfl
  | cons r rest ih =>
    by_cases hr : r.id = rid
    · rw [List.filter_cons_of_neg (by simp [hr])]
      exact ih
    · rw [List.filter_cons_of_pos (by simp [hr])]
      simp only [getRoomL, List.find?] at ih ⊢
      have hb : (r.id == rid) = false := by simp [hr]
      rw [hb]
      exact ih

/-- Auxiliary: searching past entries none of which carries the user id. -/
theorem find?_userId_append (ps l2 : List RMParticipant) (uid : String)
    (h : ps.any (fun q => q.userId == uid) = false) :
    (ps ++ l2).find? (fun q => q.userId == uid)
      = l2.find? (fun q => q.userId == uid) := by
  induction ps with
  | nil => rfl
  | cons q ps ih =>
    simp only [List.any_cons, Bool.or_eq_false_iff] at h
    simp only [List.cons_append, List.find?, h.1]
    exact ih h.2

/-- Auxiliary: filtering out a user id that occurs nowhere changes
nothing. -/
theorem filter_userId_of_absent (ps : List RMParticipant) (uid : String)
    (h : ps.any (fun q => q.userId == uid) = false) :
    ps.filter (fun q => q.userId ≠ uid) = ps := by
  induction ps with
  | nil => rfl
  | cons q ps ih =>
    simp only [List.any_cons, Bool.or_eq_false_iff] at h
    have hq : q.userId ≠ uid := by
      intro he
      rw [he] at h
      simp at h
    rw [List.filter_cons_of_pos (by simp [hq])]
    rw [ih h.2]

/-- C5 counterexample: (1) the participant map uses `Map.set`, so a
JOIN by a user already in the room replaces the entry without growing
the map, and the following LEAVE drops the count below its pre-join
value (1 before the join, 0 after join-then-leave); (2) a room that was
already empty survives a `removeParticipant` call untouched, so a
zero-participant room can remain in the registry after a removal. -/
theorem claim5_counterexample :
    (addParticipantL [{ id := "r", participants := [{ userId := "u", socketId := "s1" }] }]
        "r" "s2" "u"
      = Except.ok [{ id := "r", participants := [{ userId := "u", socketId := "s2" }] }]
    ∧ getParticipantCountL
        [{ id := "r", participants := [{ userId := "u", socketId := "s1" }] }] "r" = 1
    ∧ getParticipantCountL
        (removeParticipantL
          [{ id := "r", participants := [{ userId := "u", socketId := "s2" }] }] "r" "u")
        "r" = 0)
    ∧ (removeParticipantL [{ id := "a", participants := [] }] "a" "u"
        = [{ id := "a", participants := [] }]
    ∧ getRoomL (removeParticipantL [{ id := "a", participants := [] }] "a" "u") "a"
        = some { id := "a", participants := [] }) :=
  ⟨⟨rfl, by decide, by decide⟩, by decide, by decide⟩

/-- C5 amended: (1) when the room exists and the user is NOT already a
participant, an addParticipant followed by a removeParticipant for the
same user returns the room's participant count to its pre-join value;
(2) a removeParticipant call that actually removes a participant never
leaves its target room empty in the registry — the room is deleted
the moment its last participant is removed (rooms that were already
empty, e.g. freshly created ones, are not cleaned up). -/
theorem claim5_amended
    (rooms : List Room) (rid sockId uid : String) (room : Room) (rooms2 : List Room)
    (rooms3 : List Room) (rid3 uid3 : String) (room3 : Room)
    (hR : getRoomL rooms rid = some room)
    (hA : room.participants.any (fun q => q.userId == uid) = false)
    (hAdd : addParticipantL rooms rid sockId uid = Except.ok rooms2)
    (hM : memberL rooms3 rid3 uid3 = true)
    (hG : getRoomL (removeParticipantL rooms3 rid3 uid3) rid3 = some room3) :
    getParticipantCountL (removeParticipantL rooms2 rid uid) rid
      = getParticipantCountL rooms rid
    ∧ room3.participants ≠ [] := by
  constructor
  · -- part 1: the count returns to its pre-join value
    have hid : (room.id == rid) = true := getRoomL_some_id rooms rid room hR
    simp only [addParticipantL, hR, Except.ok.injEq] at hAdd
    have hset : setParticipant room.participants { userId := uid, socketId := sockId }
        = room.participants ++ [{ userId := uid, socketId := sockId }] := by
      simp only [setParticipant, hA, Bool.false_eq_true, if_false]
    rw [hset] at hAdd
    set p : RMParticipant := { userId := uid, socketId := sockId } with hp
    set room2 : Room := { room with participants := room.participants ++ [p] } with hroom2
    have hR2 : getRoomL rooms2 rid = some room2 := by
      rw [← hAdd]
      exact getRoomL_updateRooms rooms rid room room2 hR hid
    have hfind : room2.participants.find? (fun q => q.userId == uid) = some p := by
      show (room.participants ++ [p]).find? (fun q => q.userId == uid) = some p
      rw [find?_userId_append room.participants [p] uid hA]
      simp [hp]
    have hrem : (room.participants ++ [p]).filter (fun q => q.userId ≠ uid)
        = room.participants := by
      rw [List.filter_append, filter_userId_of_absent room.participants uid hA]
      simp [hp]
    simp only [removeParticipantL, hR2, hfind, hrem]
    cases hq : room.participants with
    | nil =>
      have hcond : (([] : List RMParticipant).isEmpty = true) := rfl
      rw [if_pos hcond]
      simp only [getParticipantCountL, getRoomL_filter_ne, hR, hq, List.length_nil]
    | cons q qs =>
      rw [if_neg (by simp)]
      have hroom3 : ({ id := room.id, participants := q :: qs } : Room) = room := by
        rw [← hq]
      rw [hroom3]
      have hget : getRoomL (updateRooms rooms2 rid room) rid = some room :=
        getRoomL_updateRooms rooms2 rid room2 room hR2 hid
      simp only [getParticipantCountL, hget, hR]
  · -- part 2: a removal that removed someone never leaves the room empty
    simp only [memberL] at hM
    cases hR3 : getRoomL rooms3 rid3 with
    | none =>
      rw [hR3] at hM
      exact absurd hM Bool.false_ne_true
    | some roomB =>
      rw [hR3] at hM
      have hM2 : roomB.participants.any (fun x => x.userId == uid3) = true := hM
      have hfind : ∃ q, roomB.participants.find? (fun x => x.userId == uid3) = some q := by
        cases hfq : roomB.participants.find? (fun x => x.userId == uid3) with
        | none =>
          rcases List.any_eq_true.mp hM2 with ⟨x, hx1, hx2⟩
          exact absurd hx2 (List.find?_eq_none.mp hfq x hx1)
        | some q => exact ⟨q, rfl⟩
      rcases hfind with ⟨q, hfq⟩
      simp only [removeParticipantL, hR3, hfq] at hG
      by_cases he : (roomB.participants.filter (fun x => x.userId ≠ uid3)).isEmpty = true
      · rw [if_pos he] at hG
        rw [getRoomL_filter_ne rooms3 rid3] at hG
        exact absurd hG (by simp)
      · rw [if_neg he] at hG
        have hid3 : (roomB.id == rid3) = true := getRoomL_some_id rooms3 rid3 roomB hR3
        have hget := getRoomL_updateRooms rooms3 rid3 roomB
          { roomB with participants := roomB.participants.filter (fun x => x.userId ≠ uid3) }
          hR3 hid3
        rw [hget] at hG
        have hinj := Option.some.inj hG
        rw [← hinj]
        intro hnil
        have hnil2 : List.filter (fun x => decide (x.userId ≠ uid3)) roomB.participants
            = [] := hnil
        exact he (by rw [hnil2]; rfl)

/-- C5 witness: the amended statement at concrete inputs — a fresh
user joining and leaving a one-member room, and a removal from a
two-member room. -/
theorem claim5_amended_witness :
    getRoomL [{ id := "r", participants := [{ userId := "v", socketId := "s0" }] }] "r"
      = some { id := "r", participants := [{ userId := "v", socketId := "s0" }] }
    ∧ ([{ userId := "v", socketId := "s0" }] : List RMParticipant).any
        (fun q => q.userId == "u") = false
    ∧ addParticipantL [{ id := "r", participants := [{ userId := "v", socketId := "s0" }] }]
        "r" "s1" "u"
      = Except.ok [{ id := "r", participants := [{ userId := "v", socketId := "s0" },
                                                 { userId := "u", socketId := "s1" }] }]
    ∧ memberL [{ id := "w", participants := [{ userId := "x", socketId := "s2" },
                                             { userId := "y", socketId := "s3" }] }] "w" "x"
      = true
    ∧ getRoomL (removeParticipantL
          [{ id := "w", participants := [{ userId := "x", socketId := "s2" },
                                         { userId := "y", socketId := "s3" }] }] "w" "x") "w"
      = some { id := "w", participants := [{ userId := "y", socketId := "s3" }] }
    ∧ (getParticipantCountL
        (removeParticipantL
          [{ id := "r", participants := [{ userId := "v", socketId := "s0" },
                                         { userId := "u", socketId := "s1" }] }] "r" "u") "r"
      = getParticipantCountL
          [{ id := "r", participants := [{ userId := "v", socketId := "s0" }] }] "r"
    ∧ ({ id := "w", participants := [{ userId := "y", socketId := "s3" }] } : Room).participants
        ≠ []) :=
  ⟨by decide, by decide, rfl, by decide, by decide,
    claim5_amended
      [{ id := "r", participants := [{ userId := "v", socketId := "s0" }] }]
      "r" "s1" "u"
      { id := "r", participants := [{ userId := "v", socketId := "s0" }] }
      [{ id := "r", participants := [{ userId := "v", socketId := "s0" },
                                     { userId := "u", socketId := "s1" }] }]
      [{ id := "w", participants := [{ userId := "x", socketId := "s2" },
                                     { userId := "y", socketId := "s3" }] }]
      "w" "x"
      { id := "w", participants := [{ userId := "y", socketId := "s3" }] }
      (by decide) (by decide) rfl (by decide) (by decide)⟩

/-- C8 counterexample: from the post-JOIN state, a single
`connectionstatechange` to connected on the send transport alone —
with the receive transport still in its initial state and zero
CONNECT_TRANSPORT acknowledgments — already moves the session status
to CONNECTED. -/
theorem claim8_counterexample :
    (clientStep clientInit
        (ClientEvent.sendConnectionStateChange TransportConnState.connected)).status
      = ConnectionStatus.connected
    ∧ (clientStep clientInit
        (ClientEvent.sendConnectionStateChange TransportConnState.connected)).recvState
      ≠ TransportConnState.connected
    ∧ (clientStep clientInit
        (ClientEvent.sendConnectionStateChange TransportConnState.connected)).connectedTransportsCount
      < 2 := by
  decide

/-- C8 amended: the client asserts CONNECTED exactly when a single
transport (send or receive) reports the connected state via
`connectionstatechange`, or the send transport's DTLS state reaches
connected, or the CONNECT_TRANSPORT acknowledgment counter reaches two,
or the periodic check observes either transport connected — it never
waits for both transports. -/
theorem claim8_amended (s : ClientConnState) (e : ClientEvent) :
    (clientStep s e).status = ConnectionStatus.connected
      ↔ (s.status = ConnectionStatus.connected ∨ connectedTrigger s e = true) := by
  cases e with
  | sendConnectionStateChange st =>
    by_cases hst : st = TransportConnState.connected
    · simp [clientStep, connectedTrigger, setConnectionStatus, hst]
    · simp [clientStep, connectedTrigger, setConnectionStatus, hst]
  | recvConnectionStateChange st =>
    by_cases hst : st = TransportConnState.connected
    · simp [clientStep, connectedTrigger, setConnectionStatus, hst]
    · simp [clientStep, connectedTrigger, setConnectionStatus, hst]
  | sendDtlsStateChange st =>
    by_cases hst : st = TransportConnState.connected
    · simp [clientStep, connectedTrigger, setConnectionStatus, hst]
    · simp [clientStep, connectedTrigger, setConnectionStatus, hst]
  | recvDtlsStateChange st =>
    simp [clientStep, connectedTrigger]
  | connectTransportAck =>
    by_cases hc : s.connectedTransportsCount + 1 ≥ 2
    · simp [clientStep, connectedTrigger, setConnectionStatus, hc]
    · by_cases hs : s.sendState = TransportConnState.connected
      · simp [clientStep, connectedTrigger, setConnectionStatus, hc, hs]
      · by_cases hr : s.recvState = TransportConnState.connected
        · simp [clientStep, connectedTrigger, setConnectionStatus, hc, hs, hr]
        · simp [clientStep, connectedTrigger, setConnectionStatus, hc, hs, hr]
  | transportsStatusCheck =>
    by_cases hs : s.sendState = TransportConnState.connected
    · simp [clientStep, connectedTrigger, setConnectionStatus, hs]
    · by_cases hr : s.recvState = TransportConnState.connected
      · simp [clientStep, connectedTrigger, setConnectionStatus, hs, hr]
      · simp [clientStep, connectedTrigger, setConnectionStatus, hs, hr]

/-- C10: `SimpleEventEmitter.emit` never throws — every listener
invocation is wrapped in a try/catch — and a throwing listener does
not prevent any later registered listener from being invoked with the
payload: the invocation log always extends by every registered
listener's action on the payload, in registration order. -/
theorem claim10_emit_total {α β : Type} (ls : List (Listener α β)) (payload : α)
    (log : List β) :
    emitRun ls payload log = Except.ok (log ++ ls.map (fun l => l.out payload)) := by
  induction ls generalizing log with
  | nil => simp [emitRun]
  | cons l rest ih =>
    cases hl : l.throws payload with
    | true =>
      simp only [emitRun, hl]
      rw [ih]
      simp
    | false =>
      simp only [emitRun, hl]
      rw [ih]
      simp

/-- Auxiliary: `processNext` establishes the queue invariant from its
first two components. -/
theorem processNext_qinv (s : QueueState)
    (h1 : s.arrivals = s.completed ++ runIds s.running ++ s.queue.map QTask.id)
    (h2 : s.processing = s.running.isSome) :
    QInv (processNext s) := by
  unfold processNext
  by_cases hp : (s.processing || s.paused) = true
  · rw [if_pos hp]
    refine ⟨h1, h2, ?_⟩
    intro hproc hpaus
    rw [hproc, hpaus] at hp
    simp at hp
  · rw [if_neg hp]
    simp only [Bool.or_eq_true, not_or, Bool.not_eq_true] at hp
    rcases hp with ⟨hproc, hpaus⟩
    have hrun : s.running = none := by
      rw [hproc] at h2
      cases hr : s.running with
      | none => rfl
      | some t => rw [hr] at h2; simp at h2
    cases hq : s.queue with
    | nil =>
      refine ⟨?_, h2, ?_⟩
      · show s.arrivals = s.completed ++ runIds s.running ++ s.queue.map QTask.id
        exact h1
      · intro _ _
        show s.queue = []
        exact hq
    | cons t rest =>
      refine ⟨?_, rfl, ?_⟩
      · show s.arrivals = s.completed ++ [t.id] ++ rest.map QTask.id
        rw [h1, hrun, hq]
        simp [runIds]
      · intro hcontra _
        simp at hcontra

/-- Auxiliary: `enqueue` preserves the queue invariant. -/
theorem qenqueue_qinv (s : QueueState) (t : QTask) (h : QInv s) :
    QInv (qenqueue s t) := by
  rcases h with ⟨h1, h2, _⟩
  unfold qenqueue
  apply processNext_qinv
  · show s.arrivals ++ [t.id]
      = s.completed ++ runIds s.running ++ (s.queue ++ [t]).map QTask.id
    rw [h1]
    simp [List.append_assoc]
  · exact h2

/-- Auxiliary: a tick with no awaited body does nothing. -/
theorem qtick_idle (s : QueueState) (hr : s.running = none) : qtick s = s := by
  unfold qtick
  split
  · rfl
  · rename_i t2 hr2
    rw [hr2] at hr
    cases hr

/-- Auxiliary: a tick on a body at its last step completes the task,
catches a rejection, clears the flag and chains into `processNext`. -/
theorem qtick_finish (s : QueueState) (t : QTask) (hr : s.running = some t)
    (hstep : t.steps = 0) :
    qtick s = processNext { s with running := none, processing := false
                                   completed := s.completed ++ [t.id]
                                   caught := if t.fails then s.caught ++ [t.id]
                                             else s.caught } := by
  unfold qtick
  split
  · rename_i hr2
    rw [hr2] at hr
    cases hr
  · rename_i t2 hr2
    have ht : t2 = t := Option.some.inj (hr2.symm.trans hr)
    subst ht
    rw [if_pos hstep]

/-- Auxiliary: a tick on a body with remaining suspensions consumes one. -/
theorem qtick_keep (s : QueueState) (t : QTask) (hr : s.running = some t)
    (hstep : t.steps ≠ 0) :
    qtick s = { s with running := some { t with steps := t.steps - 1 } } := by
  unfold qtick
  split
  · rename_i hr2
    rw [hr2] at hr
    cases hr
  · rename_i t2 hr2
    have ht : t2 = t := Option.some.inj (hr2.symm.trans hr)
    subst ht
    rw [if_neg hstep]

/-- Auxiliary: a scheduler tick preserves the queue invariant. -/
theorem qtick_qinv (s : QueueState) (h : QInv s) : QInv (qtick s) := by
  rcases h with ⟨h1, h2, h3⟩
  cases hr : s.running with
  | none =>
    rw [qtick_idle s hr]
    exact ⟨h1, h2, h3⟩
  | some t =>
    by_cases hstep : t.steps = 0
    · rw [qtick_finish s t hr hstep]
      apply processNext_qinv
      · show s.arrivals
          = (s.completed ++ [t.id]) ++ runIds (none : Option QTask)
              ++ s.queue.map QTask.id
        rw [h1, hr]
        simp [runIds, List.append_assoc]
      · rfl
    · rw [qtick_keep s t hr hstep]
      refine ⟨?_, ?_, ?_⟩
      · show s.arrivals = s.completed ++ [t.id] ++ s.queue.map QTask.id
        rw [h1, hr]
        simp [runIds]
      · show s.processing = true
        rw [h2, hr]
        rfl
      · intro hcontra _
        have hcontra2 : s.processing = false := hcontra
        rw [h2, hr] at hcontra2
        simp at hcontra2

/-- Auxiliary: `pause` preserves the queue invariant. -/
theorem qpause_qinv (s : QueueState) (h : QInv s) : QInv (qpause s) := by
  rcases h with ⟨h1, h2, _⟩
  refine ⟨h1, h2, ?_⟩
  intro _ hpaus
  simp [qpause] at hpaus

/-- Auxiliary: `resume` preserves the queue invariant. -/
theorem qresume_qinv (s : QueueState) (h : QInv s) : QInv (qresume s) := by
  rcases h with ⟨h1, h2, h3⟩
  unfold qresume
  by_cases hp : s.paused = true
  · rw [if_pos hp]
    exact processNext_qinv _ h1 h2
  · rw [if_neg hp]
    exact ⟨h1, h2, h3⟩

/-- Auxiliary: every queue event preserves the invariant. -/
theorem qstep_qinv (s : QueueState) (e : QEvent) (h : QInv s) : QInv (qstep s e) := by
  cases e with
  | enq t => exact qenqueue_qinv s t h
  | tick => exact qtick_qinv s h
  | pauseQ => exact qpause_qinv s h
  | resumeQ => exact qresume_qinv s h

/-- Auxiliary: the invariant holds along any event trace. -/
theorem foldl_qinv (es : List QEvent) (s : QueueState) (h : QInv s) :
    QInv (es.foldl qstep s) := by
  induction es generalizing s with
  | nil => exact h
  | cons e es ih => exact ih _ (qstep_qinv _ _ h)

/-- Auxiliary: the invariant holds in every reachable queue state. -/
theorem qrun_qinv (es : List QEvent) : QInv (qrun es) :=
  foldl_qinv es qinit ⟨rfl, rfl, fun _ _ => rfl⟩

/-- Auxiliary: completions form a prefix of arrivals. -/
theorem completed_take (s : QueueState) (h : QInv s) :
    s.completed = s.arrivals.take s.completed.length := by
  rcases h with ⟨h1, _, _⟩
  rw [h1, List.append_assoc, List.take_left]

/-- Auxiliary: `processNext` does not change the paused flag. -/
theorem processNext_paused (s : QueueState) : (processNext s).paused = s.paused := by
  unfold processNext
  by_cases hp : (s.processing || s.paused) = true
  · rw [if_pos hp]
  · rw [if_neg hp]
    cases hq : s.queue <;> rfl

/-- Auxiliary: `processNext` does not change the arrival log. -/
theorem processNext_arrivals (s : QueueState) : (processNext s).arrivals = s.arrivals := by
  unfold processNext
  by_cases hp : (s.processing || s.paused) = true
  · rw [if_pos hp]
  · rw [if_neg hp]
    cases hq : s.queue <;> rfl

/-- Auxiliary: `processNext` moves work from the queue to the running
slot without changing the total remaining work. -/
theorem qmeasure_processNext (s : QueueState) (h2 : s.processing = s.running.isSome) :
    qmeasure (processNext s) = qmeasure s := by
  unfold processNext
  by_cases hp : (s.processing || s.paused) = true
  · rw [if_pos hp]
  · rw [if_neg hp]
    simp only [Bool.or_eq_true, not_or, Bool.not_eq_true] at hp
    have hrun : s.running = none := by
      rw [hp.1] at h2
      cases hr : s.running with
      | none => rfl
      | some t => rw [hr] at h2; simp at h2
    cases hq : s.queue with
    | nil => rfl
    | cons t rest =>
      show taskCost t + (rest.map taskCost).sum = qmeasure s
      unfold qmeasure
      rw [hrun, hq]
      simp

/-- Auxiliary: with enough scheduler ticks, an unpaused queue completes
every task that has arrived, rejected bodies included. -/
theorem qdrain : ∀ (n : Nat) (s : QueueState), QInv s → s.paused = false →
    qmeasure s ≤ n → (qticks n s).completed = s.arrivals := by
  intro n
  induction n with
  | zero =>
    intro s h hp hm
    rcases h with ⟨h1, _, _⟩
    have hq0 : qmeasure s = 0 := Nat.le_zero.mp hm
    have hrun : s.running = none := by
      cases hr : s.running with
      | none => rfl
      | some t =>
        have hc : taskCost t + (s.queue.map taskCost).sum = 0 := by
          have hmm := hq0
          unfold qmeasure at hmm
          rw [hr] at hmm
          exact hmm
        simp only [taskCost] at hc
        omega
    have hqueue : s.queue = [] := by
      cases hqq : s.queue with
      | nil => rfl
      | cons t rest =>
        have hc : 0 + ((t :: rest).map taskCost).sum = 0 := by
          have hmm := hq0
          unfold qmeasure at hmm
          rw [hrun, hqq] at hmm
          exact hmm
        simp only [List.map_cons, List.sum_cons, taskCost] at hc
        omega
    show s.completed = s.arrivals
    rw [h1, hrun, hqueue]
    simp [runIds]
  | succ n ih =>
    intro s h hp hm
    rcases h with ⟨h1, h2, h3⟩
    show (qticks n (qtick s)).completed = s.arrivals
    cases hr : s.running with
    | none =>
      have hproc : s.processing = false := by rw [h2, hr]; rfl
      have hqueue : s.queue = [] := h3 hproc hp
      rw [qtick_idle s hr]
      apply ih s ⟨h1, h2, h3⟩ hp
      have hm0 : qmeasure s = 0 := by
        unfold qmeasure
        rw [hr, hqueue]
        rfl
      omega
    | some t =>
      have hm2 : taskCost t + (s.queue.map taskCost).sum ≤ n + 1 := by
        have hmm := hm
        unfold qmeasure at hmm
        rw [hr] at hmm
        exact hmm
      by_cases hstep : t.steps = 0
      · rw [qtick_finish s t hr hstep]
        have hpre1 : s.arrivals
            = (s.completed ++ [t.id]) ++ runIds (none : Option QTask)
                ++ s.queue.map QTask.id := by
          rw [h1, hr]
          simp [runIds, List.append_assoc]
        have hq2 := processNext_qinv
          { s with running := none, processing := false
                   completed := s.completed ++ [t.id]
                   caught := if t.fails then s.caught ++ [t.id] else s.caught }
          hpre1 rfl
        have hres := ih
          (processNext
            { s with running := none, processing := false
                     completed := s.completed ++ [t.id]
                     caught := if t.fails then s.caught ++ [t.id] else s.caught })
          hq2
          (by rw [processNext_paused]; exact hp)
          (by
            rw [qmeasure_processNext _ rfl]
            have hmeq : qmeasure
                { s with running := none, processing := false
                         completed := s.completed ++ [t.id]
                         caught := if t.fails then s.caught ++ [t.id] else s.caught }
              = 0 + (s.queue.map taskCost).sum := rfl
            rw [hmeq]
            simp only [taskCost, hstep] at hm2
            omega)
        rw [hres, processNext_arrivals]
      · rw [qtick_keep s t hr hstep]
        have hq2 : QInv { s with running := some { t with steps := t.steps - 1 } } := by
          refine ⟨?_, ?_, ?_⟩
          · show s.arrivals = s.completed ++ [t.id] ++ s.queue.map QTask.id
            rw [h1, hr]
            simp [runIds]
          · show s.processing = true
            rw [h2, hr]
            rfl
          · intro hcontra _
            have hcontra2 : s.processing = false := hcontra
            rw [h2, hr] at hcontra2
            simp at hcontra2
        exact ih _ hq2 hp (by
          have hmeq : qmeasure { s with running := some { t with steps := t.steps - 1 } }
              = (t.steps - 1 + 1) + (s.queue.map taskCost).sum := rfl
          rw [hmeq]
          simp only [taskCost] at hm2
          omega)

/-- C9: along every event trace of the dispatch queue, at most one task
body is being awaited at a time (the `processing` flag tracks exactly
the presence of an awaited body), the completion log is always a
prefix of the arrival log — tasks complete in exact enqueue order,
including tasks enqueued while an earlier body was still awaiting —
and, when the queue is not paused, enough further scheduler ticks
complete every arrived task: a task whose body rejects is caught and
does not prevent any subsequently enqueued task from executing. -/
theorem claim9_queue_fifo (es : List QEvent) (n : Nat)
    (hp : (qrun es).paused = false) (hm : qmeasure (qrun es) ≤ n) :
    (qrun es).processing = (qrun es).running.isSome
    ∧ (qrun es).completed = (qrun es).arrivals.take (qrun es).completed.length
    ∧ (qticks n (qrun es)).completed = (qrun es).arrivals := by
  have h := qrun_qinv es
  exact ⟨h.2.1, completed_take _ h, qdrain n (qrun es) h hp hm⟩

/-- C9 witness: a failing two-step task followed by a second task; the
trace interleaves the second enqueue while the first body is awaited,
and three ticks complete both in enqueue order. -/
theorem claim9_queue_fifo_witness :
    (qrun [QEvent.enq { id := 0, steps := 1, fails := true },
           QEvent.enq { id := 1, steps := 0, fails := false }]).paused = false
    ∧ qmeasure (qrun [QEvent.enq { id := 0, steps := 1, fails := true },
                      QEvent.enq { id := 1, steps := 0, fails := false }]) ≤ 3
    ∧ ((qrun [QEvent.enq { id := 0, steps := 1, fails := true },
              QEvent.enq { id := 1, steps := 0, fails := false }]).processing
        = (qrun [QEvent.enq { id := 0, steps := 1, fails := true },
                 QEvent.enq { id := 1, steps := 0, fails := false }]).running.isSome
      ∧ (qrun [QEvent.enq { id := 0, steps := 1, fails := true },
               QEvent.enq { id := 1, steps := 0, fails := false }]).completed
        = (qrun [QEvent.enq { id := 0, steps := 1, fails := true },
                 QEvent.enq { id := 1, steps := 0, fails := false }]).arrivals.take
            (qrun [QEvent.enq { id := 0, steps := 1, fails := true },
                   QEvent.enq { id := 1, steps := 0, fails := false }]).completed.length
      ∧ (qticks 3 (qrun [QEvent.enq { id := 0, steps := 1, fails := true },
                         QEvent.enq { id := 1, steps := 0, fails := false }])).completed
        = (qrun [QEvent.enq { id := 0, steps := 1, fails := true },
                 QEvent.enq { id := 1, steps := 0, fails := false }]).arrivals) :=
  ⟨by decide, by decide,
    claim9_queue_fifo
      [QEvent.enq { id := 0, steps := 1, fails := true },
       QEvent.enq { id := 1, steps := 0, fails := false }] 3
      (by decide) (by decide)⟩

end Sdk
